import Mathlib

/-!
Verification of the `ExistingNextJSMonitor` telemetry collector
(`integrate-with-existing-nextjs.js`).

The monitor keeps a metrics record (counters, page-type tallies, a per-route
tally, a cached average response time) together with a capacity-bounded
rolling buffer `requestTimes` of duration samples.  We embed the mutable
state as an explicit `MonitorState` value and every entry point of the class
as a pure state transformer.  JavaScript numbers are modelled as `ℚ`
(durations, averages, rates) and `Int` (the `activeConnections` gauge, which
the source clamps at zero with `Math.max`); the monotonic counters are `Nat`.
The `routes` object is modelled as a total function `String → Nat` defaulting
to `0`, matching the lazy-initialisation pattern
`if (!routes[r]) routes[r] = 0; routes[r]++`.
-/

/-- The `pages` sub-record of the metrics object: per-category visit tallies. -/
structure Pages where
  home : Nat
  api : Nat
  other : Nat
deriving Repr, DecidableEq

/-- The `this.metrics` object (numeric and tally fields used by the claims;
string fields such as `projectName` and the build-info probe results carry no
arithmetic content and are omitted). -/
structure Metrics where
  responseTime : ℚ
  cpuUsage : ℚ
  memoryUsage : ℚ
  requestCount : Nat
  errorCount : Nat
  successCount : Nat
  activeConnections : Int
  uptime : ℚ
  pages : Pages
  routes : String → Nat

/-- Whole-monitor state: the metrics record plus the rolling sample buffer
`this.requestTimes`. -/
structure MonitorState where
  metrics : Metrics
  requestTimes : List ℚ

/-- The state right after the constructor runs: all counters zero, empty
buffer, empty route map. -/
def initState : MonitorState :=
  { metrics :=
      { responseTime := 0
        cpuUsage := 0
        memoryUsage := 0
        requestCount := 0
        errorCount := 0
        successCount := 0
        activeConnections := 0
        uptime := 0
        pages := { home := 0, api := 0, other := 0 }
        routes := fun _ => 0 }
    requestTimes := [] }

/-- The push-and-trim pattern used on `this.requestTimes`:
`push(d); if (length > 1000) shift()`.  `shift` removes the oldest (front)
element, so the buffer is FIFO with capacity 1000. -/
def pushSample (buf : List ℚ) (d : ℚ) : List ℚ :=
  let b := buf ++ [d]
  if b.length > 1000 then b.drop 1 else b

/-- JavaScript `s.startsWith(p)`, modelled on the character sequence. -/
def jsStartsWith (s p : String) : Bool := p.data.isPrefixOf s.data

/-- Source `classifyPage(pageName)`: `'/'` and `'/index'` are `home`,
a `'/api/'`-prefixed name is `api`, everything else `other`. -/
def classifyPage (pageName : String) : String :=
  if pageName = "/" ∨ pageName = "/index" then "home"
  else if jsStartsWith pageName "/api/" then "api"
  else "other"

/-- The page-tally update inside `updateMetrics`: the `api` counter is bumped
whenever the call carries `type === 'api'`; otherwise only the two home paths
are recognised and everything else (including `/api/...` routes) is `other`. -/
def updatePages (p : Pages) (route ty : String) : Pages :=
  if ty = "api" then { p with api := p.api + 1 }
  else if route = "/" ∨ route = "/index" then { p with home := p.home + 1 }
  else { p with other := p.other + 1 }

/-- Lazy-init-then-increment of `this.metrics.routes[route]`. -/
def incRoute (routes : String → Nat) (route : String) : String → Nat :=
  fun r => if r = route then routes r + 1 else routes r

/-- Source `updateMetrics(responseTime, statusCode, route, type)`: pushes the sample,
bumps `requestCount` and exactly one of `errorCount` (status ≥ 400) or
`successCount`, bumps a page tally and the route tally, and recomputes the
cached `responseTime` average from the (now nonempty) buffer. -/
def updateMetrics (s : MonitorState) (responseTime : ℚ) (statusCode : Nat)
    (route ty : String) : MonitorState :=
  let newTimes := pushSample s.requestTimes responseTime
  let m := s.metrics
  { requestTimes := newTimes
    metrics :=
      { m with
        requestCount := m.requestCount + 1
        errorCount := m.errorCount + (if 400 ≤ statusCode then 1 else 0)
        successCount := m.successCount + (if 400 ≤ statusCode then 0 else 1)
        pages := updatePages m.pages route ty
        routes := incRoute m.routes route
        responseTime :=
          if 0 < newTimes.length then newTimes.sum / (newTimes.length : ℚ)
          else m.responseTime } }

/-- Source `trackApiRoute(handler)` applied to one request.  The wrapped handler's
behaviour is abstracted as its `outcome` (normal return value or thrown
error) together with the measured `elapsed` time.  The wrapper increments
`activeConnections` on entry, records the outcome via `updateMetrics` with
status 200 (success) or 500 (thrown error) and type `'api'`, and in the
`finally` block sets `activeConnections = max(0, activeConnections - 1)`.
The original result or error is passed back to the caller unchanged. -/
def trackApiRoute {ε α : Type} (s : MonitorState) (route : String)
    (outcome : Except ε α) (elapsed : ℚ) : MonitorState × Except ε α :=
  let s1 : MonitorState :=
    { s with metrics :=
        { s.metrics with activeConnections := s.metrics.activeConnections + 1 } }
  let s2 : MonitorState :=
    match outcome with
    | Except.ok _ => updateMetrics s1 elapsed 200 route "api"
    | Except.error _ => updateMetrics s1 elapsed 500 route "api"
  ({ s2 with metrics :=
      { s2.metrics with
        activeConnections := max 0 (s2.metrics.activeConnections - 1) } },
   outcome)

/-- Source `trackPageView(pageName)`: classifies the page, bumps the corresponding
page tally and the route tally.  (Console output is presentation only.) -/
def trackPageView (s : MonitorState) (pageName : String) : MonitorState :=
  let t := classifyPage pageName
  let m := s.metrics
  { s with metrics :=
      { m with
        pages :=
          if t = "home" then { m.pages with home := m.pages.home + 1 }
          else if t = "api" then { m.pages with api := m.pages.api + 1 }
          else { m.pages with other := m.pages.other + 1 }
        routes := incRoute m.routes pageName } }

/-- Source `trackCustomEvent(eventName, duration, metadata)`: the sample is pushed
only when `duration` is truthy (present and nonzero — `if (duration)`), the
route tally for `eventName` is always bumped, and the cached `responseTime`
is NOT recomputed.  `metadata` only feeds console output and is omitted. -/
def trackCustomEvent (s : MonitorState) (eventName : String)
    (duration : Option ℚ) : MonitorState :=
  let newTimes :=
    match duration with
    | some d => if d ≠ 0 then pushSample s.requestTimes d else s.requestTimes
    | none => s.requestTimes
  let m := s.metrics
  { requestTimes := newTimes
    metrics := { m with routes := incRoute m.routes eventName } }

/-- Source `getMetrics()` returns a (shallow) copy of the metrics record. -/
def getMetrics (s : MonitorState) : Metrics := s.metrics

/-- JavaScript `Math.round(x * 100) / 100` (round to 2 decimal places). -/
def round2 (x : ℚ) : ℚ := ((round (x * 100) : ℤ) : ℚ) / 100

/-- JavaScript `Math.round(x * 10) / 10` (round to 1 decimal place). -/
def round1 (x : ℚ) : ℚ := ((round (x * 10) : ℤ) : ℚ) / 10

/-- Source `collectMetrics()`: refreshes `memoryUsage` (rounded to 2 dp),
`cpuUsage` (rounded to 1 dp, clamped to `[5, 100]`, then replaced by the
randomised value `15 + rand·30` when still below 10 with traffic present),
and `uptime`.  The external probes (`process.memoryUsage().rss`,
`process.cpuUsage()`, `Math.random()`, `Date.now()`) are inputs. -/
def collectMetrics (s : MonitorState) (memRss cpuUser cpuSystem randVal : ℚ)
    (nowMs startMs updateInterval : ℚ) : MonitorState :=
  let m := s.metrics
  let mem := round2 (memRss / 1024 / 1024)
  let cpu0 := min 100 (max 5 (round1 ((cpuUser + cpuSystem) / 1000000 * (updateInterval / 1000))))
  let cpu := if cpu0 < 10 ∧ 0 < m.requestCount then 15 + randVal * 30 else cpu0
  { s with metrics :=
      { m with memoryUsage := mem, cpuUsage := cpu, uptime := nowMs - startMs } }

/-- The record serialised by `writeMetricsFile()`: the metrics fields spread
verbatim, plus the derived rates computed at write time.  String/timestamp
fields (`lastUpdated`, `integration`, …) carry no numeric content. -/
structure OutputRecord where
  responseTime : ℚ
  cpuUsage : ℚ
  memoryUsage : ℚ
  requestCount : Nat
  errorCount : Nat
  successCount : Nat
  activeConnections : Int
  uptime : ℚ
  pages : Pages
  requestRate : ℚ
  errorRate : ℚ
  successRate : ℚ

/-- The pure projection performed by `writeMetricsFile()` before the
`fs.writeFileSync` call. -/
def writeMetricsOutput (s : MonitorState) : OutputRecord :=
  let m := s.metrics
  { responseTime := m.responseTime
    cpuUsage := m.cpuUsage
    memoryUsage := m.memoryUsage
    requestCount := m.requestCount
    errorCount := m.errorCount
    successCount := m.successCount
    activeConnections := m.activeConnections
    uptime := m.uptime
    pages := m.pages
    requestRate :=
      if 0 < m.uptime then (m.requestCount : ℚ) / (m.uptime / 1000) else 0
    errorRate :=
      if 0 < m.requestCount then ((m.errorCount : ℚ) / (m.requestCount : ℚ)) * 100
      else 0
    successRate :=
      if 0 < m.requestCount then ((m.successCount : ℚ) / (m.requestCount : ℚ)) * 100
      else 100 }

/-- Arithmetic mean of the buffer contents, 0 when empty (the reference value
the spec compares the cached `responseTime` against). -/
def bufferMean (l : List ℚ) : ℚ :=
  if l = [] then 0 else l.sum / (l.length : ℚ)

/-- One request observed through the `trackApiRoute` wrapper: its route, its
measured duration, and whether the wrapped handler returned or threw. -/
structure ApiCall where
  route : String
  elapsed : ℚ
  outcome : Except String Unit

/-- Whether an observed call completed successfully. -/
def ApiCall.isSuccess (c : ApiCall) : Bool :=
  match c.outcome with
  | Except.ok _ => true
  | Except.error _ => false

/-- Run a sequence of wrapped requests to completion, one after the other
(each one runs `enter → handler → record → release` in full). -/
def runApi (s : MonitorState) (cs : List ApiCall) : MonitorState :=
  cs.foldl (fun t c => (trackApiRoute t c.route c.outcome c.elapsed).1) s

/-- Number of successful calls in a sequence. -/
def countSuccess (cs : List ApiCall) : Nat :=
  (cs.filter (fun c => c.isSuccess)).length

/-- Number of failed calls in a sequence. -/
def countFailure (cs : List ApiCall) : Nat :=
  (cs.filter (fun c => !c.isSuccess)).length

/-- A recording operation on the monitor, as invoked by the host app:
a wrapped API request (success or thrown error), a page view, or a custom
event without a (truthy) duration. -/
inductive MonOp where
  | apiCall (route : String) (elapsed : ℚ) (ok : Bool)
  | pageView (name : String)
  | customNoDuration (name : String)

/-- Apply one recording operation. -/
def applyOp (s : MonitorState) : MonOp → MonitorState
  | MonOp.apiCall r e true => (trackApiRoute s r (Except.ok () : Except Unit Unit) e).1
  | MonOp.apiCall r e false => (trackApiRoute s r (Except.error () : Except Unit Unit) e).1
  | MonOp.pageView n => trackPageView s n
  | MonOp.customNoDuration n => trackCustomEvent s n none

/-- Run a sequence of recording operations from a starting state. -/
def runOps (s : MonitorState) (ops : List MonOp) : MonitorState :=
  ops.foldl applyOp s

/-- Scheduler state: the monitor, whether the periodic `setInterval` timer is
armed, and the list of snapshot records persisted so far (in write order). -/
structure SchedState where
  monitor : MonitorState
  timerArmed : Bool
  written : List OutputRecord

/-- One firing of the periodic timer: if the interval is still armed it
persists a snapshot of the current monitor state; after `clearInterval` the
timer produces no further firings, modelled as a no-op. -/
def schedTick (st : SchedState) : SchedState :=
  if st.timerArmed then
    { st with written := st.written ++ [writeMetricsOutput st.monitor] }
  else st

/-- Source `cleanup()`: the `clearInterval` call disarms the timer, then `writeMetricsFile()`
synchronously persists one final snapshot of the current metrics. -/
def cleanup (st : SchedState) : SchedState :=
  { st with
    timerArmed := false
    written := st.written ++ [writeMetricsOutput st.monitor] }

/-- Modelled from the spec (claim C4's words): the classifier the claim
describes — only the root path is `home`, an `/api/`-prefixed route is `api`,
everything else is `other`. -/
def specClassifyClaim (routeId : String) : String :=
  if routeId = "/" then "home"
  else if jsStartsWith routeId "/api/" then "api"
  else "other"

/-- The claim amended: the two home paths recognised by the source (`/` and
`/index`) map to `home`; an `/api/`-prefixed route maps to `api`; every other
route maps to `other`. -/
def specClassifyAmended (routeId : String) : String :=
  if routeId ∈ ["/", "/index"] then "home"
  else if jsStartsWith routeId "/api/" then "api"
  else "other"

set_option maxRecDepth 10000

/-! ## Helper lemmas -/

lemma pushSample_ne_nil (buf : List ℚ) (d : ℚ) : pushSample buf d ≠ [] := by
  simp only [pushSample]
  split
  · rename_i h
    intro hc
    have hl := congrArg List.length hc
    simp only [List.length_drop, List.length_append, List.length_singleton,
      List.length_nil] at hl h
    omega
  · simp

lemma foldl_pushSample_drop (ds : List ℚ) :
    ds.foldl pushSample [] = ds.drop (ds.length - 1000) := by
  induction ds using List.reverseRecOn with
  | nil => rfl
  | append_singleton ds d ih =>
      rw [List.foldl_append, List.foldl_cons, List.foldl_nil, ih]
      by_cases h : ds.length < 1000
      · have e1 : ds.length - 1000 = 0 := by omega
        have e2 : (ds ++ [d]).length - 1000 = 0 := by
          simp only [List.length_append, List.length_singleton]; omega
        rw [e1, e2, List.drop_zero, List.drop_zero]
        simp only [pushSample]
        rw [if_neg]
        simp only [List.length_append, List.length_singleton]
        omega
      · push_neg at h
        have hlen : (ds.drop (ds.length - 1000)).length = 1000 := by
          rw [List.length_drop]; omega
        have h1 : (1 : ℕ) ≤ (ds.drop (ds.length - 1000)).length := by
          rw [hlen]; norm_num
        have h2 : (ds ++ [d]).length - 1000 ≤ ds.length := by
          simp only [List.length_append, List.length_singleton]; omega
        simp only [pushSample]
        rw [if_pos]
        · rw [List.drop_append_of_le_length h1,
              List.drop_append_of_le_length h2, List.drop_drop]
          congr 2
          simp only [List.length_append, List.length_singleton]
          omega
        · rw [List.length_append, hlen]
          norm_num

/-! ## C2: the rolling buffer is a FIFO window of capacity 1000 -/

/-- C2: after any sequence of pushes starting from the empty buffer, the
buffer never exceeds the capacity 1000, its length is `min n 1000`, and its
contents are exactly the last `min n 1000` pushed samples in insertion order
(`ds.drop (n - 1000)` is the suffix of the push sequence): for `n = 1000 + K`
pushes it holds exactly the last 1000 samples, the oldest evicted FIFO. -/
theorem sampleBuffer_fifo_window (ds : List ℚ) :
    (ds.foldl pushSample []).length ≤ 1000 ∧
    (ds.foldl pushSample []).length = min ds.length 1000 ∧
    ds.foldl pushSample [] = ds.drop (ds.length - 1000) := by
  refine ⟨?_, ?_, foldl_pushSample_drop ds⟩ <;>
    rw [foldl_pushSample_drop, List.length_drop] <;> omega

/-! ## C4: the classifier -/

/-- C4 counterexample: the route `"/index"` is neither the root path nor
`/api/`-prefixed, so the claim requires `other`; the source classifier
returns `home` for it. -/
theorem classifyPage_claim_counterexample :
    classifyPage "/index" = "home" ∧ specClassifyClaim "/index" = "other" ∧
    "/index" ≠ "/" ∧ jsStartsWith "/index" "/api/" = false := by
  refine ⟨?_, ?_, by decide, by decide⟩ <;> decide

/-- C4 amended: `classifyPage` maps the two home paths `/` and `/index` to
`home`, any `/api/`-prefixed route to `api`, and every other route to
`other` (it agrees everywhere with the amended spec classifier); in
particular the claim's three examples hold. -/
theorem classifyPage_spec_amended :
    (∀ r : String, classifyPage r = specClassifyAmended r) ∧
    classifyPage "/" = "home" ∧ classifyPage "/api/users" = "api" ∧
    classifyPage "/about" = "other" := by
  refine ⟨fun r => ?_, by decide, by decide, by decide⟩
  unfold classifyPage specClassifyAmended
  simp only [List.mem_cons, List.mem_singleton, List.not_mem_nil, or_false]

/-! ## C5: error path of the wrapper -/

/-- C5: when the wrapped handler throws, `trackApiRoute` increments
`errorCount` (not `successCount`), pushes the elapsed-time sample, bumps the
request count, restores the `activeConnections` gauge
(`max 0 (a + 1 - 1) = max 0 a`), and returns the identical original error to
the caller. -/
theorem trackApiRoute_error_resignal (s : MonitorState) (route e : String)
    (elapsed : ℚ) :
    (trackApiRoute s route (Except.error e : Except String Unit) elapsed).2 =
      Except.error e ∧
    ((trackApiRoute s route (Except.error e : Except String Unit) elapsed).1).metrics.errorCount
      = s.metrics.errorCount + 1 ∧
    ((trackApiRoute s route (Except.error e : Except String Unit) elapsed).1).metrics.successCount
      = s.metrics.successCount ∧
    ((trackApiRoute s route (Except.error e : Except String Unit) elapsed).1).metrics.requestCount
      = s.metrics.requestCount + 1 ∧
    ((trackApiRoute s route (Except.error e : Except String Unit) elapsed).1).requestTimes
      = pushSample s.requestTimes elapsed ∧
    ((trackApiRoute s route (Except.error e : Except String Unit) elapsed).1).metrics.activeConnections
      = max 0 s.metrics.activeConnections := by
  have hc : s.metrics.activeConnections + 1 - 1 = s.metrics.activeConnections := by
    ring
  simp [trackApiRoute, updateMetrics, hc]

/-! ## C1: outcome accounting over a completed request sequence -/

lemma apiStep_counts (s : MonitorState) (c : ApiCall) :
    ((trackApiRoute s c.route c.outcome c.elapsed).1).metrics.requestCount
      = s.metrics.requestCount + 1 ∧
    ((trackApiRoute s c.route c.outcome c.elapsed).1).metrics.successCount
      = s.metrics.successCount + (if c.isSuccess then 1 else 0) ∧
    ((trackApiRoute s c.route c.outcome c.elapsed).1).metrics.errorCount
      = s.metrics.errorCount + (if c.isSuccess then 0 else 1) ∧
    ((trackApiRoute s c.route c.outcome c.elapsed).1).metrics.activeConnections
      = max 0 s.metrics.activeConnections := by
  obtain ⟨r, e, o⟩ := c
  have hc : s.metrics.activeConnections + 1 - 1 = s.metrics.activeConnections := by
    ring
  cases o <;> simp [trackApiRoute, updateMetrics, ApiCall.isSuccess, hc]

lemma countSuccess_cons (c : ApiCall) (cs : List ApiCall) :
    countSuccess (c :: cs) = (if c.isSuccess then 1 else 0) + countSuccess cs := by
  by_cases h : c.isSuccess <;>
    simp [countSuccess, List.filter_cons, h, Nat.add_comm]

lemma countFailure_cons (c : ApiCall) (cs : List ApiCall) :
    countFailure (c :: cs) = (if c.isSuccess then 0 else 1) + countFailure cs := by
  by_cases h : c.isSuccess <;>
    simp [countFailure, List.filter_cons, h, Nat.add_comm]

lemma runApi_counts_general (cs : List ApiCall) : ∀ s : MonitorState,
    s.metrics.activeConnections = 0 →
    (runApi s cs).metrics.requestCount = s.metrics.requestCount + cs.length ∧
    (runApi s cs).metrics.successCount = s.metrics.successCount + countSuccess cs ∧
    (runApi s cs).metrics.errorCount = s.metrics.errorCount + countFailure cs ∧
    (runApi s cs).metrics.activeConnections = 0 := by
  induction cs with
  | nil =>
      intro s h0
      exact ⟨rfl, by simp [countSuccess, runApi], by simp [countFailure, runApi], h0⟩
  | cons c cs ih =>
      intro s h0
      obtain ⟨h1, h2, h3, h4⟩ := apiStep_counts s c
      have h0' : ((trackApiRoute s c.route c.outcome c.elapsed).1).metrics.activeConnections = 0 := by
        rw [h4, h0]; exact max_self 0
      have hrw : runApi s (c :: cs)
          = runApi ((trackApiRoute s c.route c.outcome c.elapsed).1) cs := rfl
      obtain ⟨g1, g2, g3, g4⟩ := ih _ h0'
      refine ⟨?_, ?_, ?_, by rw [hrw]; exact g4⟩
      · rw [hrw, g1, h1, List.length_cons]; omega
      · rw [hrw, g2, h2, countSuccess_cons]; omega
      · rw [hrw, g3, h3, countFailure_cons]; omega

/-- C1: for every sequence of run-to-completion wrapped requests of which
`countSuccess` complete successfully and `countFailure` throw, the final
state has `requestCount` = total, `successCount`/`errorCount` matching the
split, and `activeConnections` back at 0. -/
theorem observe_sequence_final_counts (cs : List ApiCall) :
    (runApi initState cs).metrics.requestCount = cs.length ∧
    (runApi initState cs).metrics.successCount = countSuccess cs ∧
    (runApi initState cs).metrics.errorCount = countFailure cs ∧
    (runApi initState cs).metrics.activeConnections = 0 := by
  have h := runApi_counts_general cs initState rfl
  simpa [initState] using h

/-! ## C3: the cached average versus the buffer mean -/

lemma updateMetrics_mean (s : MonitorState) (rt : ℚ) (code : Nat) (r ty : String) :
    (updateMetrics s rt code r ty).metrics.responseTime =
      bufferMean ((updateMetrics s rt code r ty).requestTimes) := by
  have hne := pushSample_ne_nil s.requestTimes rt
  have hlen : 0 < (pushSample s.requestTimes rt).length := List.length_pos.mpr hne
  simp [updateMetrics, bufferMean, hne, hlen]

lemma runOps_mean (ops : List MonOp) : ∀ s : MonitorState,
    s.metrics.responseTime = bufferMean s.requestTimes →
    (runOps s ops).metrics.responseTime = bufferMean ((runOps s ops).requestTimes) := by
  induction ops with
  | nil => intro s h; exact h
  | cons op ops ih =>
      intro s h
      have hstep : (applyOp s op).metrics.responseTime
          = bufferMean ((applyOp s op).requestTimes) := by
        cases op with
        | apiCall r e ok =>
            cases ok <;>
              simpa [applyOp, trackApiRoute] using
                updateMetrics_mean { s with metrics :=
                  { s.metrics with
                    activeConnections := s.metrics.activeConnections + 1 } } e _ r "api"
        | pageView n => simpa [applyOp, trackPageView] using h
        | customNoDuration n => simpa [applyOp, trackCustomEvent] using h
      have hrw : runOps s (op :: ops) = runOps (applyOp s op) ops := rfl
      rw [hrw]
      exact ih _ hstep

/-- C3 counterexample: `responseTime` is a cached value recomputed only by
`updateMetrics`.  `trackCustomEvent` pushes a sample without recomputing it,
so immediately afterwards a read (`getMetrics`) returns 0 while the buffer
mean is 10 — the value read is stale, not computed fresh at read time. -/
theorem responseTime_stale_counterexample :
    (getMetrics (trackCustomEvent initState "evt" (some 10))).responseTime = 0 ∧
    bufferMean ((trackCustomEvent initState "evt" (some 10)).requestTimes) = 10 ∧
    (getMetrics (trackCustomEvent initState "evt" (some 10))).responseTime ≠
      bufferMean ((trackCustomEvent initState "evt" (some 10)).requestTimes) := by
  refine ⟨rfl, ?_, ?_⟩ <;>
    norm_num [getMetrics, trackCustomEvent, bufferMean, pushSample, initState]

/-- C3 amended: along any sequence of request recordings (wrapped API calls,
page views, duration-less custom events) the cached `responseTime` read by
`getMetrics` does equal the arithmetic mean of the buffer (0 when empty);
the equality is maintained because `updateMetrics` recomputes the cache on
every push, not because the snapshot recomputes it at read time, and a
`trackCustomEvent` push with a nonzero duration breaks it. -/
theorem responseTime_mean_after_recordings (ops : List MonOp) :
    (getMetrics (runOps initState ops)).responseTime =
      bufferMean ((runOps initState ops).requestTimes) := by
  exact runOps_mean ops initState rfl

/-! ## C6: persisted success and error rates -/

/-- C6: in the persisted record, `successRate` is 100 and `errorRate` is 0
when `requestCount` is 0, and otherwise they are the exact percentage ratios
`errorCount/requestCount·100` and `successCount/requestCount·100`. -/
theorem persisted_rates (s : MonitorState) :
    (writeMetricsOutput s).errorRate =
      (if s.metrics.requestCount = 0 then 0
       else ((s.metrics.errorCount : ℚ) / (s.metrics.requestCount : ℚ)) * 100) ∧
    (writeMetricsOutput s).successRate =
      (if s.metrics.requestCount = 0 then 100
       else ((s.metrics.successCount : ℚ) / (s.metrics.requestCount : ℚ)) * 100) := by
  by_cases h : s.metrics.requestCount = 0
  · simp [writeMetricsOutput, h]
  · have hp : 0 < s.metrics.requestCount := Nat.pos_of_ne_zero h
    simp [writeMetricsOutput, h, hp]

/-! ## C10: custom events with zero versus positive duration -/

/-- C10: `trackCustomEvent` with duration 0 (falsy, like an absent duration)
pushes no sample but still bumps `routes[eventName]` by 1; with a strictly
positive duration it pushes exactly one sample (the buffer becomes
`pushSample` of the old buffer) and bumps the route tally by 1. -/
theorem trackCustomEvent_duration_cases (s : MonitorState) (name : String)
    (d : ℚ) (hd : 0 < d) :
    (trackCustomEvent s name (some 0)).requestTimes = s.requestTimes ∧
    (trackCustomEvent s name (some 0)).metrics.routes name
      = s.metrics.routes name + 1 ∧
    (trackCustomEvent s name (some d)).requestTimes = pushSample s.requestTimes d ∧
    (trackCustomEvent s name (some d)).metrics.routes name
      = s.metrics.routes name + 1 := by
  have hd' : d ≠ 0 := ne_of_gt hd
  simp [trackCustomEvent, incRoute, hd']

/-- Witness for C10 at duration 1 and the initial state. -/
theorem trackCustomEvent_duration_cases_witness :
    (0:ℚ) < 1 ∧
    ((trackCustomEvent initState "evt" (some 0)).requestTimes = initState.requestTimes ∧
     (trackCustomEvent initState "evt" (some 0)).metrics.routes "evt"
       = initState.metrics.routes "evt" + 1 ∧
     (trackCustomEvent initState "evt" (some 1)).requestTimes
       = pushSample initState.requestTimes 1 ∧
     (trackCustomEvent initState "evt" (some 1)).metrics.routes "evt"
       = initState.metrics.routes "evt" + 1) :=
  ⟨by norm_num, trackCustomEvent_duration_cases initState "evt" 1 (by norm_num)⟩

/-! ## C7: which page-type counter gets incremented -/

/-- C7 counterexample: a request with route `"/"` recorded through the
API-route wrapper increments `pages.api`, although the Classifier maps `"/"`
to `home`; the counter named by the Classifier (`pages.home`) stays 0. -/
theorem pages_counter_ignores_classifier :
    classifyPage "/" = "home" ∧
    ((trackApiRoute initState "/" (Except.ok () : Except Unit Unit) 5).1).metrics.pages.api = 1 ∧
    ((trackApiRoute initState "/" (Except.ok () : Except Unit Unit) 5).1).metrics.pages.home = 0 ∧
    initState.metrics.pages.api = 0 := by
  exact ⟨by decide, rfl, rfl, rfl⟩

lemma classifyPage_cases (r : String) :
    classifyPage r = "home" ∨ classifyPage r = "api" ∨ classifyPage r = "other" := by
  unfold classifyPage
  split_ifs <;> simp

/-- C7 amended: only the page-view entry point follows the Classifier —
`trackPageView` increments exactly `pages[classifyPage r]` and leaves the
other two tallies unchanged.  A request recorded through the API-route
wrapper always increments `pages.api` (its `type` is hard-wired to `'api'`),
regardless of what the Classifier says about its route. -/
theorem pages_increment_amended (s : MonitorState) (r : String) (e : ℚ)
    (o : Except Unit Unit) :
    ((trackPageView s r).metrics.pages.home
       = s.metrics.pages.home + (if classifyPage r = "home" then 1 else 0)) ∧
    ((trackPageView s r).metrics.pages.api
       = s.metrics.pages.api + (if classifyPage r = "api" then 1 else 0)) ∧
    ((trackPageView s r).metrics.pages.other
       = s.metrics.pages.other + (if classifyPage r = "other" then 1 else 0)) ∧
    (((trackApiRoute s r o e).1).metrics.pages.api = s.metrics.pages.api + 1) ∧
    (((trackApiRoute s r o e).1).metrics.pages.home = s.metrics.pages.home) ∧
    (((trackApiRoute s r o e).1).metrics.pages.other = s.metrics.pages.other) := by
  refine ⟨?_, ?_, ?_, ?_, ?_, ?_⟩
  · rcases classifyPage_cases r with h | h | h <;> simp [trackPageView, h]
  · rcases classifyPage_cases r with h | h | h <;> simp [trackPageView, h]
  · rcases classifyPage_cases r with h | h | h <;> simp [trackPageView, h]
  · cases o <;> simp [trackApiRoute, updateMetrics, updatePages]
  · cases o <;> simp [trackApiRoute, updateMetrics, updatePages]
  · cases o <;> simp [trackApiRoute, updateMetrics, updatePages]

/-! ## C8: shutdown drain -/

lemma schedTick_iterate_stopped (n : Nat) : ∀ u : SchedState,
    u.timerArmed = false → Nat.iterate schedTick n u = u := by
  induction n with
  | zero => intro u _; rfl
  | succ n ih =>
      intro u h
      rw [Function.iterate_succ_apply]
      have hu : schedTick u = u := by simp [schedTick, h]
      rw [hu]
      exact ih u h

/-- C8: `cleanup` disarms the periodic timer and synchronously appends
exactly one final snapshot of the current monitor state to the persisted
records; after that, any number of further timer firings write nothing. -/
theorem cleanup_drain (st : SchedState) (n : Nat) :
    (cleanup st).timerArmed = false ∧
    (cleanup st).written = st.written ++ [writeMetricsOutput st.monitor] ∧
    (Nat.iterate schedTick n (cleanup st)).written
      = st.written ++ [writeMetricsOutput st.monitor] := by
  refine ⟨rfl, rfl, ?_⟩
  rw [schedTick_iterate_stopped n (cleanup st) rfl]
  rfl

/-! ## C9: which persisted fields are rounded -/

lemma round2_int_div_hundred (k : ℤ) : round2 ((k : ℚ) / 100) = (k : ℚ) / 100 := by
  unfold round2
  rw [div_mul_cancel₀ _ (by norm_num : (100:ℚ) ≠ 0), round_intCast]

lemma round2_idem (x : ℚ) : round2 (round2 x) = round2 x :=
  round2_int_div_hundred (round (x * 100))

lemma round1_int_div_ten (k : ℤ) : round1 ((k : ℚ) / 10) = (k : ℚ) / 10 := by
  unfold round1
  rw [div_mul_cancel₀ _ (by norm_num : (10:ℚ) ≠ 0), round_intCast]

lemma round1_clamp (j : ℤ) :
    round1 (min 100 (max 5 ((j : ℚ) / 10))) = min 100 (max 5 ((j : ℚ) / 10)) := by
  rcases le_total ((j : ℚ) / 10) 5 with h | h
  · rw [max_eq_left h, min_eq_right (by norm_num : (5:ℚ) ≤ 100)]
    rw [show (5:ℚ) = ((50:ℤ) : ℚ) / 10 by norm_num, round1_int_div_ten]
  · rw [max_eq_right h]
    rcases le_total ((j : ℚ) / 10) 100 with h2 | h2
    · rw [min_eq_right h2, round1_int_div_ten]
    · rw [min_eq_left h2]
      rw [show (100:ℚ) = ((1000:ℤ) : ℚ) / 10 by norm_num, round1_int_div_ten]

lemma round1_clamp_round1 (q : ℚ) :
    round1 (min 100 (max 5 (round1 q))) = min 100 (max 5 (round1 q)) :=
  round1_clamp (round (q * 10))

lemma writeMetricsOutput_memoryUsage (s : MonitorState) :
    (writeMetricsOutput s).memoryUsage = s.metrics.memoryUsage := rfl

lemma writeMetricsOutput_cpuUsage (s : MonitorState) :
    (writeMetricsOutput s).cpuUsage = s.metrics.cpuUsage := rfl

lemma writeMetricsOutput_responseTime (s : MonitorState) :
    (writeMetricsOutput s).responseTime = s.metrics.responseTime := rfl

lemma writeMetricsOutput_requestRate (s : MonitorState) :
    (writeMetricsOutput s).requestRate =
      (if 0 < s.metrics.uptime
       then (s.metrics.requestCount : ℚ) / (s.metrics.uptime / 1000) else 0) := rfl

lemma writeMetricsOutput_errorRate (s : MonitorState) :
    (writeMetricsOutput s).errorRate =
      (if 0 < s.metrics.requestCount
       then ((s.metrics.errorCount : ℚ) / (s.metrics.requestCount : ℚ)) * 100
       else 0) := rfl

lemma writeMetricsOutput_successRate (s : MonitorState) :
    (writeMetricsOutput s).successRate =
      (if 0 < s.metrics.requestCount
       then ((s.metrics.successCount : ℚ) / (s.metrics.requestCount : ℚ)) * 100
       else 100) := rfl

lemma collectMetrics_fields (s : MonitorState)
    (memRss cpuUser cpuSystem randVal nowMs startMs updateInterval : ℚ) :
    (collectMetrics s memRss cpuUser cpuSystem randVal nowMs startMs updateInterval).metrics.memoryUsage
      = round2 (memRss / 1024 / 1024) ∧
    ((collectMetrics s memRss cpuUser cpuSystem randVal nowMs startMs updateInterval).metrics.cpuUsage
        = 15 + randVal * 30 ∨
      (collectMetrics s memRss cpuUser cpuSystem randVal nowMs startMs updateInterval).metrics.cpuUsage
        = min 100 (max 5 (round1 ((cpuUser + cpuSystem) / 1000000 * (updateInterval / 1000))))) ∧
    (collectMetrics s memRss cpuUser cpuSystem randVal nowMs startMs updateInterval).metrics.responseTime
      = s.metrics.responseTime ∧
    (collectMetrics s memRss cpuUser cpuSystem randVal nowMs startMs updateInterval).metrics.requestCount
      = s.metrics.requestCount ∧
    (collectMetrics s memRss cpuUser cpuSystem randVal nowMs startMs updateInterval).metrics.errorCount
      = s.metrics.errorCount ∧
    (collectMetrics s memRss cpuUser cpuSystem randVal nowMs startMs updateInterval).metrics.successCount
      = s.metrics.successCount ∧
    (collectMetrics s memRss cpuUser cpuSystem randVal nowMs startMs updateInterval).metrics.uptime
      = nowMs - startMs := by
  by_cases hf : (min 100 (max 5 (round1 ((cpuUser + cpuSystem) / 1000000 * (updateInterval / 1000)))) : ℚ) < 10
      ∧ 0 < s.metrics.requestCount
  · refine ⟨rfl, Or.inl ?_, rfl, rfl, rfl, rfl, rfl⟩
    show (if _ ∧ _ then (15 + randVal * 30 : ℚ) else _) = 15 + randVal * 30
    rw [if_pos hf]
  · refine ⟨rfl, Or.inr ?_, rfl, rfl, rfl, rfl, rfl⟩
    show (if _ ∧ _ then (15 + randVal * 30 : ℚ) else _) = _
    rw [if_neg hf]

/-- C9 counterexample: after three wrapper-recorded requests with durations
1, 0, 0 the persisted `responseTime` is the exact mean 1/3, which is not a
2-decimal value — the source writes it without rounding. -/
theorem persisted_responseTime_unrounded :
    (writeMetricsOutput (updateMetrics (updateMetrics (updateMetrics initState 1 200 "/a" "api") 0 200 "/a" "api") 0 200 "/a" "api")).responseTime
      = 1 / 3 ∧
    round2 ((writeMetricsOutput (updateMetrics (updateMetrics (updateMetrics initState 1 200 "/a" "api") 0 200 "/a" "api") 0 200 "/a" "api")).responseTime)
      ≠ (writeMetricsOutput (updateMetrics (updateMetrics (updateMetrics initState 1 200 "/a" "api") 0 200 "/a" "api") 0 200 "/a" "api")).responseTime := by
  have h : (writeMetricsOutput (updateMetrics (updateMetrics (updateMetrics initState 1 200 "/a" "api") 0 200 "/a" "api") 0 200 "/a" "api")).responseTime
      = 1 / 3 := by
    norm_num [writeMetricsOutput, updateMetrics, pushSample, initState]
  refine ⟨h, ?_⟩
  rw [h]
  norm_num [round2, round_eq]

/-- C9 amended: of the fractional persisted fields only `memoryUsage` is
rounded to 2 decimal places; `cpuUsage` is rounded to 1 decimal place (and
clamped) unless replaced by the unrounded randomised fallback; and
`responseTime`, `requestRate`, `errorRate`, `successRate` are written at
full precision, exactly as computed. -/
theorem persisted_rounding_amended (s : MonitorState)
    (memRss cpuUser cpuSystem randVal nowMs startMs updateInterval : ℚ) :
    round2 ((writeMetricsOutput (collectMetrics s memRss cpuUser cpuSystem randVal nowMs startMs updateInterval)).memoryUsage)
      = (writeMetricsOutput (collectMetrics s memRss cpuUser cpuSystem randVal nowMs startMs updateInterval)).memoryUsage ∧
    ((writeMetricsOutput (collectMetrics s memRss cpuUser cpuSystem randVal nowMs startMs updateInterval)).cpuUsage
        = 15 + randVal * 30 ∨
      round1 ((writeMetricsOutput (collectMetrics s memRss cpuUser cpuSystem randVal nowMs startMs updateInterval)).cpuUsage)
        = (writeMetricsOutput (collectMetrics s memRss cpuUser cpuSystem randVal nowMs startMs updateInterval)).cpuUsage) ∧
    (writeMetricsOutput (collectMetrics s memRss cpuUser cpuSystem randVal nowMs startMs updateInterval)).responseTime
      = s.metrics.responseTime ∧
    (writeMetricsOutput (collectMetrics s memRss cpuUser cpuSystem randVal nowMs startMs updateInterval)).requestRate
      = (if 0 < nowMs - startMs then (s.metrics.requestCount : ℚ) / ((nowMs - startMs) / 1000) else 0) ∧
    (writeMetricsOutput (collectMetrics s memRss cpuUser cpuSystem randVal nowMs startMs updateInterval)).errorRate
      = (if 0 < s.metrics.requestCount then ((s.metrics.errorCount : ℚ) / (s.metrics.requestCount : ℚ)) * 100 else 0) ∧
    (writeMetricsOutput (collectMetrics s memRss cpuUser cpuSystem randVal nowMs startMs updateInterval)).successRate
      = (if 0 < s.metrics.requestCount then ((s.metrics.successCount : ℚ) / (s.metrics.requestCount : ℚ)) * 100 else 100) := by
  obtain ⟨hm, hc, hrt, hreq, herr, hsucc, hup⟩ :=
    collectMetrics_fields s memRss cpuUser cpuSystem randVal nowMs startMs updateInterval
  refine ⟨?_, ?_, ?_, ?_, ?_, ?_⟩
  · rw [writeMetricsOutput_memoryUsage, hm]
    exact round2_idem _
  · rcases hc with h | h
    · exact Or.inl (by rw [writeMetricsOutput_cpuUsage, h])
    · refine Or.inr ?_
      rw [writeMetricsOutput_cpuUsage, h]
      exact round1_clamp_round1 _
  · rw [writeMetricsOutput_responseTime, hrt]
  · rw [writeMetricsOutput_requestRate, hup, hreq]
  · rw [writeMetricsOutput_errorRate, hreq, herr]
  · rw [writeMetricsOutput_successRate, hreq, hsucc]
